import Mathlib

/-!
Verification of the greg media aggregator against its specification.

The development shallowly embeds the sflix native adapter
(internal/providers/movies/sflix) and the provider registry
(internal/registry/manager.go). Go strings are modelled as `List Char`,
Go `(T, error)` returns as `Except GoErr T`, and the adapter's two
`sync.Map` caches as association lists threaded explicitly through each
operation. Network and HTML-parsing effects are parametrized as function
arguments, so every definition is executable and the cache / fallback /
identity-encoding logic is translated line by line from the source.
-/

namespace Greg

/-- Go strings, modelled as their character lists. -/
abbrev GoStr := List Char

/-- Literal Go string. -/
def gs (s : String) : GoStr := s.data

/-- Model of Go errors: `fmt.Errorf("msg")` builds `base`, and
`fmt.Errorf("msg: %w", err)` builds `wrap`. -/
inductive GoErr where
  | base (msg : GoStr)
  | wrap (msg : GoStr) (cause : GoErr)
deriving DecidableEq

/-- Modelled from the spec: the observable part of a `context.Context`
(the spec's cancellation context); the sflix adapter never inspects it. -/
structure GoContext where
  cancelled : Bool
deriving DecidableEq

/-- Modelled from the spec: media kinds {movie, tv, movie_or_tv, anime, manga}
(`providers.MediaType`, declared outside the provided sources). -/
inductive MediaType where
  | movie | tv | movieTV | anime | manga
deriving DecidableEq

/-- Modelled from the spec: `providers.Media`
{id, title, kind, poster URL, release year, ...} as used by the sflix adapter. -/
structure Media where
  id : GoStr
  title : GoStr
  mtype : MediaType
  posterURL : GoStr
  year : Nat
  synopsis : GoStr
  genres : List GoStr
deriving DecidableEq

/-- Modelled from the spec: `providers.MediaDetails` is Media plus details. -/
structure MediaDetails where
  media : Media
deriving DecidableEq

/-- Modelled from the spec: `providers.Season` {id, ordinal number, title}. -/
structure Season where
  id : GoStr
  number : Nat
  title : GoStr
deriving DecidableEq

/-- Modelled from the spec: `providers.Episode` {id, number, title, season}. -/
structure Episode where
  id : GoStr
  number : Nat
  title : GoStr
  season : Nat
deriving DecidableEq

/-- Modelled from the spec: `types.Episode` of pkg/types as used by the
adapter: {ID, Number, Season, Title, URL}. -/
structure TEpisode where
  id : GoStr
  number : Nat
  season : Nat
  title : GoStr
  url : GoStr
deriving DecidableEq

/-- Modelled from the spec: `types.MovieInfo` of pkg/types, the parsed
info page: id, url, title, image, description, rating, release date,
genres, media type, episodes and last-season statistics. -/
structure MovieInfo where
  id : GoStr
  url : GoStr
  title : GoStr
  image : GoStr
  description : GoStr
  rating : GoStr
  releaseDate : GoStr
  genres : List GoStr
  mtype : GoStr
  episodes : List TEpisode
  lastSeason : Nat
  totalEpisodesLastSeason : Nat
deriving DecidableEq

/-- Modelled from the spec: `types.Source`
{url, quality label, is-segmented-stream flag, referer}. -/
structure Source where
  url : GoStr
  quality : GoStr
  isM3U8 : Bool
  referer : GoStr
deriving DecidableEq

/-- Modelled from the spec: `types.Subtitle` {url, language tag}. -/
structure Subtitle where
  url : GoStr
  lang : GoStr
deriving DecidableEq

/-- Modelled from the spec: `types.VideoSources` is an ordered Source list
plus an ordered Subtitle list. -/
structure VideoSources where
  sources : List Source
  subtitles : List Subtitle
deriving DecidableEq

/-- Modelled from the spec: `types.EpisodeServer` {name (extractor key),
opaque locator (the adapter stores the server data-id in URL)}. -/
structure EpisodeServer where
  name : GoStr
  url : GoStr
deriving DecidableEq

/-- Modelled from the spec: stream kinds HLS (segmented) and MP4. -/
inductive StreamType where
  | hls | mp4
deriving DecidableEq

/-- Modelled from the spec: `providers.StreamURL` as built by the sflix
adapter: url, quality, stream type, referer, header map, subtitles. -/
structure StreamURL where
  url : GoStr
  quality : GoStr
  stype : StreamType
  referer : GoStr
  headers : List (GoStr × GoStr)
  subtitles : List (GoStr × GoStr)
deriving DecidableEq

/-- Modelled from the spec: the distinguished `auto` quality sentinel
(`providers.QualityAuto`). -/
def qualityAuto : GoStr := gs "auto"

/-- Association-list lookup, modelling `sync.Map.Load` / Go map indexing. -/
def kvLookup {α β : Type} [DecidableEq α] : List (α × β) → α → Option β
  | [], _ => none
  | (k, v) :: rest, a => if k = a then some v else kvLookup rest a

/-- Association-list insert-or-replace, modelling `sync.Map.Store` /
Go map assignment. -/
def kvInsert {α β : Type} [DecidableEq α] : List (α × β) → α → β → List (α × β)
  | [], a, b => [(a, b)]
  | (k, v) :: rest, a, b => if k = a then (a, b) :: rest else (k, v) :: kvInsert rest a b

/-- Mutable state of one `SFlix` adapter instance: its two `sync.Map`
caches (src/unnamed/part_003 lines 504-509). `BaseURL` and the HTTP
client live inside the parametrized fetch functions. -/
structure SFlixState where
  searchCache : List (GoStr × List Media)
  infoCache : List (GoStr × MovieInfo)
deriving DecidableEq

/-- Error message of src/unnamed/part_003 line 1246. -/
def allServersFailedMsg : GoStr := gs "failed to extract sources from all servers"

/-- Error message of src/unnamed/part_003 line 1220. -/
def fetchServersFailedMsg : GoStr := gs "failed to fetch servers"

/-- Server-fallback loop of `FetchEpisodeSourcesWithMediaID`
(src/unnamed/part_003 lines 1230-1252): try each server in order; an
extraction error is recorded in `lastErr` and the loop continues; the
first result with a non-empty Sources list is returned as is; after
exhaustion, a recorded error is returned wrapped, otherwise an empty
`VideoSources`. Besides the Go result the embedding also returns the
list of servers on which the extractor was actually invoked. -/
def tryServers (extract : EpisodeServer → Except GoErr VideoSources) :
    List EpisodeServer → Option GoErr → Except GoErr VideoSources × List EpisodeServer
  | [], lastErr =>
    (match lastErr with
     | some e => .error (.wrap allServersFailedMsg e)
     | none => .ok ⟨[], []⟩,
     [])
  | srv :: rest, lastErr =>
    match extract srv with
    | .error e =>
      let r := tryServers extract rest (some e)
      (r.1, srv :: r.2)
    | .ok sources =>
      if sources.sources.length > 0 then (.ok sources, [srv])
      else
        let r := tryServers extract rest lastErr
        (r.1, srv :: r.2)

/-- Embedding of `FetchEpisodeSourcesWithMediaID` (src/unnamed/part_003
lines 1216-1253). The network call `FetchEpisodeServersWithMediaID` is
parametrized by its result `serversResult`, and the per-server body
`extractSourcesFromServer` (pure network / JSON / extractor work, lines
1256-1307) by `extract`. Returns the Go result together with the list of
servers attempted by the loop. -/
def FetchEpisodeSourcesWithMediaID
    (serversResult : Except GoErr (List EpisodeServer))
    (extract : EpisodeServer → Except GoErr VideoSources) :
    Except GoErr VideoSources × List EpisodeServer :=
  match serversResult with
  | .error e => (.error (.wrap fetchServersFailedMsg e), [])
  | .ok servers =>
    if servers.length = 0 then (.ok ⟨[], []⟩, [])
    else tryServers extract servers none

/-- Embedding of `HealthCheck` (src/unnamed/part_003 lines 821-823):
the body is `return nil`, ignoring the context and the adapter state. -/
def HealthCheck (_s : SFlixState) (_ctx : GoContext) : Option GoErr := none

/-- Error message of src/unnamed/part_003 lines 814 and 818. -/
def notImplementedMsg : GoStr := gs "not implemented"

/-- Embedding of `GetTrending` (src/unnamed/part_003 lines 813-815):
unconditionally `return nil, fmt.Errorf("not implemented")`. -/
def GetTrending (_s : SFlixState) (_ctx : GoContext) : Except GoErr (List Media) :=
  .error (.base notImplementedMsg)

/-- Embedding of `GetRecent` (src/unnamed/part_003 lines 817-819):
unconditionally `return nil, fmt.Errorf("not implemented")`. -/
def GetRecent (_s : SFlixState) (_ctx : GoContext) : Except GoErr (List Media) :=
  .error (.base notImplementedMsg)

/-- Sample server (first in list) used to evaluate the pipeline. -/
def srvA : EpisodeServer := ⟨gs "upcloud", gs "101"⟩

/-- Sample server (second in list). -/
def srvB : EpisodeServer := ⟨gs "vidcloud", gs "102"⟩

/-- Sample server (third in list). -/
def srvC : EpisodeServer := ⟨gs "doodstream", gs "103"⟩

/-- Sample non-empty extraction result. -/
def vsB : VideoSources :=
  ⟨[⟨gs "https://cdn.example/v.m3u8", gs "1080p", true, gs "https://sflix.ps"⟩],
   [⟨gs "https://cdn.example/en.vtt", gs "English"⟩]⟩

/-- Sample extractor outcome map: first server errors, second succeeds
with a non-empty source list, third would succeed cleanly. -/
def exFirstFails : EpisodeServer → Except GoErr VideoSources := fun srv =>
  if srv = srvA then .error (.base (gs "decrypt failed"))
  else if srv = srvB then .ok vsB
  else .ok ⟨[], []⟩

/-- Sample extractor outcome map: every server produces a hard error
naming the server. -/
def exAllFail : EpisodeServer → Except GoErr VideoSources := fun srv =>
  .error (.base (gs "embed fetch failed for " ++ srv.name))

/-- Sample extractor outcome map: every server yields a clean empty
result (no error, no sources). -/
def exAllClean : EpisodeServer → Except GoErr VideoSources := fun srv =>
  .ok ⟨[], if srv = srvA then [⟨gs "https://cdn.example/x.vtt", gs "English"⟩] else []⟩

/-- Model of `strings.EqualFold` as used on ASCII quality labels:
equality after lower-casing every character. -/
def eqFold (a b : GoStr) : Bool := a.map Char.toLower == b.map Char.toLower

/-- Quality requested by the caller, normalized as in `GetStreamURL`
(src/unnamed/part_003 lines 756-759): the `auto` sentinel is compared
against the literal label "auto". -/
def targetQualityOf (quality : GoStr) : GoStr :=
  if quality = qualityAuto then gs "auto" else quality

/-- Construction of the `StreamURL` result from the selected source and
the subtitle list (src/unnamed/part_003 lines 773-793). -/
def mkStreamURL (sel : Source) (subs : List Subtitle) : StreamURL :=
  { url := sel.url
    quality := sel.quality
    stype := if sel.isM3U8 then .hls else .mp4
    referer := sel.referer
    headers := [(gs "Referer", sel.referer)]
    subtitles := subs.map (fun sub => (sub.lang, sub.url)) }

/-- Embedding of `GetStreamURL` (src/unnamed/part_003 lines 738-796)
given the result of the inner `GetSources` call: error propagation, the
empty-sources error, first-match quality selection via case-insensitive
comparison (the Go loop with its `found` flag is `List.find?` with
fallback to the first source), and the `StreamURL` construction. -/
def GetStreamURLPure (res : Except GoErr VideoSources) (quality : GoStr) :
    Except GoErr StreamURL :=
  match res with
  | .error e => .error e
  | .ok v =>
    match v.sources with
    | [] => .error (.base (gs "no sources found"))
    | s0 :: rest =>
      let targetQuality := targetQualityOf quality
      let selected :=
        match (s0 :: rest).find? (fun src => eqFold src.quality targetQuality) with
        | some s => s
        | none => s0
      .ok (mkStreamURL selected v.subtitles)

/-- Sample source labelled 1080p. -/
def src1080 : Source := ⟨gs "https://cdn.example/1080.m3u8", gs "1080p", true, gs "https://sflix.ps"⟩

/-- Sample source labelled 720p. -/
def src720 : Source := ⟨gs "https://cdn.example/720.m3u8", gs "720p", true, gs "https://sflix.ps"⟩

/-- Sample source labelled 480p. -/
def src480 : Source := ⟨gs "https://cdn.example/480.mp4", gs "480p", false, gs "https://sflix.ps"⟩

/-- Conversion of a parsed `MovieInfo` into `MediaDetails`
(src/unnamed/part_003 lines 611-625); the year field keeps its Go zero
value. -/
def toMediaDetails (id : GoStr) (mi : MovieInfo) : MediaDetails :=
  { media :=
    { id := id
      title := mi.title
      mtype := if mi.mtype = gs "tv" then .tv else .movie
      posterURL := mi.image
      year := 0
      synopsis := mi.description
      genres := mi.genres } }

/-- Embedding of `GetInfo` (src/unnamed/part_003 lines 826-987): return
the info-cache entry for the exact id when present; otherwise run the
upstream fetch-and-parse (the whole network / HTML body, parametrized as
`fetchParse`), store the result under the exact id and return it. The
third component counts upstream fetches performed by the call. -/
def GetInfoM (fetchParse : GoStr → Except GoErr MovieInfo)
    (st : SFlixState) (id : GoStr) :
    Except GoErr MovieInfo × SFlixState × Nat :=
  match kvLookup st.infoCache id with
  | some info => (.ok info, st, 0)
  | none =>
    match fetchParse id with
    | .error e => (.error e, st, 1)
    | .ok info => (.ok info, { st with infoCache := kvInsert st.infoCache id info }, 1)

/-- Embedding of `GetMediaDetails` (src/unnamed/part_003 lines 600-626):
call `GetInfo` and convert its result (the Go type assertion always
succeeds in this model, as `GetInfo` only ever stores `*MovieInfo`). -/
def GetMediaDetailsM (fetchParse : GoStr → Except GoErr MovieInfo)
    (st : SFlixState) (id : GoStr) :
    Except GoErr MediaDetails × SFlixState × Nat :=
  match GetInfoM fetchParse st id with
  | (.error e, st2, n) => (.error e, st2, n)
  | (.ok info, st2, n) => (.ok (toMediaDetails id info), st2, n)

/-- Embedding of `Search` (src/unnamed/part_003 lines 527-598): return
the search-cache entry for the exact query when present; otherwise run
the upstream fetch-and-scrape (parametrized as `fetchParse`; the
dash-for-space URL rewriting happens inside it), store the results under
the exact query and return them. The third component counts upstream
fetches performed by the call. -/
def SearchM (fetchParse : GoStr → Except GoErr (List Media))
    (st : SFlixState) (query : GoStr) :
    Except GoErr (List Media) × SFlixState × Nat :=
  match kvLookup st.searchCache query with
  | some results => (.ok results, st, 0)
  | none =>
    match fetchParse query with
    | .error e => (.error e, st, 1)
    | .ok results =>
      (.ok results, { st with searchCache := kvInsert st.searchCache query results }, 1)

/-- Sample parsed info page. -/
def infoSample : MovieInfo :=
  { id := gs "tv/free-stranger-things-hd-39444"
    url := gs "https://sflix.ps/tv/free-stranger-things-hd-39444"
    title := gs "Stranger Things"
    image := gs ""
    description := gs ""
    rating := gs ""
    releaseDate := gs ""
    genres := []
    mtype := gs "tv"
    episodes := []
    lastSeason := 0
    totalEpisodesLastSeason := 0 }

/-- Sample parsed info page after an upstream content change. -/
def infoSampleChanged : MovieInfo :=
  { infoSample with title := gs "Stranger Things (retitled upstream)" }

/-- Sample search result list. -/
def mediaSample : List Media :=
  [{ id := gs "tv/free-stranger-things-hd-39444"
     title := gs "Stranger Things"
     mtype := .tv
     posterURL := gs ""
     year := 2016
     synopsis := gs ""
     genres := [] }]

/-- Sample search result list after an upstream content change. -/
def mediaSampleChanged : List Media :=
  [{ id := gs "tv/free-stranger-things-hd-39444"
     title := gs "Stranger Things 5"
     mtype := .tv
     posterURL := gs ""
     year := 2025
     synopsis := gs ""
     genres := [] }]

/-- Episode-id splitting shared by `GetSources` and `GetServers`
(src/unnamed/part_003 lines 1202-1210): an id of the form
"episodeID|mediaID" is split into its two halves; otherwise the media id
stays the Go zero string. -/
def parseEpisodeID (episodeID : GoStr) : GoStr × GoStr :=
  match episodeID.splitOn '|' with
  | [a, b] => (a, b)
  | _ => (episodeID, [])

/-- Embedding of `GetSources` (src/unnamed/part_003 lines 1201-1213)
with the adapter state threaded explicitly: split the episode id and run
the resolution pipeline. The body references neither cache, so the state
is returned untouched. -/
def GetSourcesSt (fetchServers : GoStr → GoStr → Except GoErr (List EpisodeServer))
    (extract : EpisodeServer → Except GoErr VideoSources)
    (st : SFlixState) (episodeID : GoStr) :
    (Except GoErr VideoSources × List EpisodeServer) × SFlixState :=
  let p := parseEpisodeID episodeID
  (FetchEpisodeSourcesWithMediaID (fetchServers p.1 p.2) extract, st)

/-- State-threaded form of `FetchEpisodeSourcesWithMediaID`
(src/unnamed/part_003 lines 1216-1253): the function touches no adapter
cache. -/
def FetchEpisodeSourcesWithMediaIDSt
    (fetchServers : GoStr → GoStr → Except GoErr (List EpisodeServer))
    (extract : EpisodeServer → Except GoErr VideoSources)
    (st : SFlixState) (episodeID mediaID : GoStr) :
    (Except GoErr VideoSources × List EpisodeServer) × SFlixState :=
  (FetchEpisodeSourcesWithMediaID (fetchServers episodeID mediaID) extract, st)

/-- State-threaded form of `extractSourcesFromServer`
(src/unnamed/part_003 lines 1256-1307): its whole body — the
/ajax/episode/sources HTTP call, the JSON decode of the embed link and
the extractor dispatch — is network work parametrized as
`embedExtract`; it references no adapter state. -/
def extractSourcesFromServerSt
    (embedExtract : EpisodeServer → Except GoErr VideoSources)
    (st : SFlixState) (server : EpisodeServer) :
    Except GoErr VideoSources × SFlixState :=
  (embedExtract server, st)

/-- Embedding of `GetStreamURL` (src/unnamed/part_003 lines 738-796)
with the adapter state threaded explicitly: call `GetSources`, then
select the source; no cache is read or written. -/
def GetStreamURLSt (fetchServers : GoStr → GoStr → Except GoErr (List EpisodeServer))
    (extract : EpisodeServer → Except GoErr VideoSources)
    (st : SFlixState) (episodeID quality : GoStr) :
    Except GoErr StreamURL × SFlixState :=
  let r := GetSourcesSt fetchServers extract st episodeID
  (GetStreamURLPure r.1.1 quality, r.2)

/-- Fuelled decimal printer: with fuel at least the number printed this
is the digit string of `n`, most significant first. -/
def natToCharsAux : Nat → Nat → List Char
  | 0, n => [Nat.digitChar n]
  | fuel + 1, n =>
    if n < 10 then [Nat.digitChar n]
    else natToCharsAux fuel (n / 10) ++ [Nat.digitChar (n % 10)]

/-- Decimal digit string of a natural number, as emitted by
`fmt.Sprintf("%d", n)` / `strconv.Itoa` for the non-negative values the
adapter prints. -/
def natToChars (n : Nat) : List Char := natToCharsAux n n

/-- Model of `strconv.Atoi` on the unsigned decimal strings the
adapter's id encoding produces: non-empty all-digit input parses to its
value, anything else errors (`none`). -/
def goAtoi (s : GoStr) : Option Nat :=
  if s ≠ [] ∧ s.all Char.isDigit then
    some (s.foldl (fun a c => 10 * a + (c.toNat - 48)) 0)
  else none

/-- Season-id encoding of `GetSeasons` (src/unnamed/part_003 line 658):
`fmt.Sprintf("%s|%d", mediaID, sNum)`. -/
def mkSeasonID (mediaID : GoStr) (n : Nat) : GoStr :=
  mediaID ++ '|' :: natToChars n

/-- Season-id parsing opening `GetEpisodes` (src/unnamed/part_003 lines
678-691): when the id contains "|", split on it; the first part is the
media id and the second, when it parses as an integer, overrides the
default season number 1. An id without "|" is the media id itself with
season number 1. -/
def parseSeasonID (seasonID : GoStr) : GoStr × Nat :=
  if '|' ∈ seasonID then
    let parts := seasonID.splitOn '|'
    let mediaID := parts.headD []
    let seasonNum :=
      match parts.drop 1 with
      | p1 :: _ =>
        match goAtoi p1 with
        | some n => n
        | none => 1
      | [] => 1
    (mediaID, seasonNum)
  else (seasonID, 1)

/-- Season collection loop of `GetSeasons` (src/unnamed/part_003 lines
647-663): walk the episodes, mapping season 0 to 1, and emit one Season
per first occurrence of a season number, with the delimited id and a
"Season N" title. -/
def collectSeasons (mediaID : GoStr) : List TEpisode → List Nat → List Season
  | [], _ => []
  | ep :: rest, seen =>
    let sNum := if ep.season = 0 then 1 else ep.season
    if sNum ∈ seen then collectSeasons mediaID rest seen
    else ⟨mkSeasonID mediaID sNum, sNum, gs "Season " ++ natToChars sNum⟩ ::
      collectSeasons mediaID rest (sNum :: seen)

/-- One comparison of the `GetSeasons` sorting loop: for indices i < j,
exchange the entries when they are out of order by season number. -/
def swapIfGreater (l : List Season) (i j : Nat) : List Season :=
  if i < j then
    match l.get? i, l.get? j with
    | some a, some b => if a.number > b.number then (l.set i b).set j a else l
    | _, _ => l
  else l

/-- The exchange-sort double loop of `GetSeasons` (src/unnamed/part_003
lines 666-672): i over all indices, j over the later ones. -/
def sortSeasons (l : List Season) : List Season :=
  (List.range l.length).foldl
    (fun acc i => (List.range l.length).foldl (fun acc2 j => swapIfGreater acc2 i j) acc)
    l

/-- Embedding of `GetSeasons` (src/unnamed/part_003 lines 628-675) given
the parsed info for the media id (`GetInfo` success parametrized away):
a single synthetic Season 1 carrying the plain media id when there are
no episodes; otherwise one Season per distinct season number with the
delimited id, sorted by number. -/
def GetSeasonsPure (mediaID : GoStr) (info : MovieInfo) : List Season :=
  if info.episodes.length = 0 then [⟨mediaID, 1, gs "Season 1"⟩]
  else sortSeasons (collectSeasons mediaID info.episodes [])

/-- Embedding of `GetEpisodes` (src/unnamed/part_003 lines 677-736)
given the parsed info: re-derive media id and season number from the
season id, keep the episodes of that season (season 0 counting as 1)
with composite "id|mediaID" episode ids, and synthesize one episode for
episode-less titles when season 1 was requested. -/
def GetEpisodesPure (seasonID : GoStr) (info : MovieInfo) : List Episode :=
  let p := parseSeasonID seasonID
  let eps := info.episodes.filterMap (fun ep =>
    let epSeason := if ep.season = 0 then 1 else ep.season
    if epSeason = p.2 then
      some ⟨if ep.url ≠ [] ∧ ep.url ≠ ep.id then ep.id ++ '|' :: ep.url else ep.id,
            ep.number, ep.title, epSeason⟩
    else none)
  if info.episodes.length = 0 ∧ p.2 = 1 then
    eps ++ [⟨info.id, 1, info.title, 1⟩]
  else eps

/-- Sample parsed info whose episodes sit in seasons 2 and 1. -/
def infoSeasons : MovieInfo :=
  { infoSample with episodes :=
    [⟨gs "9001", 1, 2, gs "E1", gs "tv/x"⟩,
     ⟨gs "9002", 1, 1, gs "E1", gs "tv/x"⟩] }

/-- Per-provider settings block (src/unnamed/part_007,
`config.ProviderSettings`); `Registry.Load` reads only `enabled`,
`mode` and `remoteURL`. -/
structure ProviderSettings where
  mode : GoStr
  remoteURL : GoStr
  enabled : Bool
  baseURL : GoStr
  apiURL : GoStr
  timeout : Nat
  maxRetries : Nat
  rateLimit : Nat
deriving DecidableEq

/-- Provider settings of the providers configuration used by
`Registry.Load` (src/unnamed/part_007, `config.ProvidersConfig`; the
default/priority/failover fields are not read by Load). -/
structure ProvidersConfig where
  hianime : ProviderSettings
  allanime : ProviderSettings
  sflix : ProviderSettings
  flixhq : ProviderSettings
  hdrezka : ProviderSettings
  comix : ProviderSettings
  lua : ProviderSettings
deriving DecidableEq

/-- The value registered per provider name: a tag per statically known
native constructor, `remote` for remote clients, and `lua` for script
plugins (whose constructor `luaprovider.New` is outside the provided
sources). -/
inductive Provider where
  | hianime
  | allanime
  | sflix
  | flixhq
  | hdrezkaMovie
  | hdrezkaAnime
  | comix
  | remote (name url : GoStr)
  | lua (path : GoStr)
deriving DecidableEq

/-- Model of `strings.Contains(s, sub)`. -/
def goContainsSub (sub : GoStr) : GoStr → Bool
  | [] => sub.isEmpty
  | c :: t => sub.isPrefixOf (c :: t) || goContainsSub sub t

/-- Model of `strings.TrimRight(s, "/")`. -/
def goTrimRightSlash (s : GoStr) : GoStr :=
  (s.reverse.dropWhile (fun c => c = '/')).reverse

/-- Embedding of the `register` closure of `Registry.Load`
(src/internal/registry/manager.go lines 34-57): skip disabled
providers; in remote mode register a remote client only when a
RemoteURL is configured, appending "/mediaType/name" when the URL does
not already mention "/name"; otherwise register the local provider (the
local factory is non-nil at every call site). -/
def registerProvider (reg : List (GoStr × Provider)) (name : GoStr)
    (settings : ProviderSettings) (localProv : Provider) (mediaType : GoStr) :
    List (GoStr × Provider) :=
  if !settings.enabled then reg
  else if settings.mode = gs "remote" then
    if settings.remoteURL ≠ [] then
      let url :=
        if !goContainsSub ('/' :: name) settings.remoteURL then
          goTrimRightSlash settings.remoteURL ++ '/' :: (mediaType ++ '/' :: name)
        else settings.remoteURL
      kvInsert reg name (.remote name url)
    else reg
  else kvInsert reg name localProv

/-- Directory entry as listed by `os.ReadDir`: name and directory flag. -/
structure DirEntry where
  name : GoStr
  isDir : Bool
deriving DecidableEq

/-- Model of `filepath.Ext` on plain file names: the suffix starting at
the final dot, empty when there is no dot. -/
def goExt (name : GoStr) : GoStr :=
  if '.' ∈ name then '.' :: (name.reverse.takeWhile (fun c => c ≠ '.')).reverse
  else []

/-- Outcome of `Registry.Load`: the resulting provider map, every error
it reported to the caller or a log (the code as written reports none:
its directory-error branch holds only comments), and the plugin script
paths passed to `luaprovider.New`, in load order. -/
structure LoadResult where
  reg : List (GoStr × Provider)
  reported : List GoErr
  loaded : List GoStr
deriving DecidableEq

/-- Body of the lua scan loop of `Registry.Load`
(src/internal/registry/manager.go lines 76-83): each non-directory
".lua" entry is turned into a provider via `luaprovider.New` on the
joined path and registered under the name the plugin reports. -/
def luaLoadStep (cfg : ProvidersConfig) (luaDir : GoStr)
    (luaName luaType : GoStr → GoStr) (acc : LoadResult) (f : DirEntry) : LoadResult :=
  if !f.isDir && goExt f.name == gs ".lua" then
    let path := luaDir ++ '/' :: f.name
    ⟨registerProvider acc.reg (luaName path) cfg.lua (.lua path) (luaType path),
     acc.reported, acc.loaded ++ [path]⟩
  else acc

/-- Embedding of `Registry.Load` (src/internal/registry/manager.go lines
32-85). The seven static providers are registered first; then the lua
plugin directory listing (the `os.ReadDir` outcome, parametrized as
`dirListing`) is scanned. On a read error the code does nothing — the
branch contains only comments — so nothing is reported and no plugin
loads; otherwise each ".lua" file is loaded once. The plugin's reported
name and type (`lp.Name()`, `lp.Type()`) are parametrized as `luaName`
and `luaType`, modelled from the spec: `luaprovider` is outside the
provided sources, and per the spec a broken plugin still reports the
sentinel name "Unknown" rather than failing. -/
def registryLoad (cfg : ProvidersConfig) (luaDir : GoStr)
    (dirListing : Except GoErr (List DirEntry))
    (luaName luaType : GoStr → GoStr) : LoadResult :=
  let reg1 := registerProvider [] (gs "hianime") cfg.hianime .hianime (gs "anime")
  let reg2 := registerProvider reg1 (gs "allanime") cfg.allanime .allanime (gs "anime")
  let reg3 := registerProvider reg2 (gs "sflix") cfg.sflix .sflix (gs "movies")
  let reg4 := registerProvider reg3 (gs "flixhq") cfg.flixhq .flixhq (gs "movies")
  let reg5 := registerProvider reg4 (gs "hdrezka") cfg.hdrezka .hdrezkaMovie (gs "movies")
  let reg6 := registerProvider reg5 (gs "hdrezka_anime") cfg.hdrezka .hdrezkaAnime (gs "anime")
  let reg7 := registerProvider reg6 (gs "comix") cfg.comix .comix (gs "manga")
  match dirListing with
  | .error _ => ⟨reg7, [], []⟩
  | .ok files => files.foldl (luaLoadStep cfg luaDir luaName luaType) ⟨reg7, [], []⟩

/-- Sample settings: enabled, local mode. -/
def settingsLocal : ProviderSettings :=
  ⟨gs "local", [], true, [], [], 0, 0, 0⟩

/-- Sample configuration enabling every provider in local mode. -/
def cfgAllLocal : ProvidersConfig :=
  ⟨settingsLocal, settingsLocal, settingsLocal, settingsLocal,
   settingsLocal, settingsLocal, settingsLocal⟩

/-!  Lemmas about the server-fallback loop. -/

/-- Traversing a prefix of servers that all fail to extract only records
some last error and prepends the prefix to the attempted-servers trace. -/
theorem tryServers_error_prefix (extract : EpisodeServer → Except GoErr VideoSources)
    (rest : List EpisodeServer) :
    ∀ (pre : List EpisodeServer) (lastErr : Option GoErr),
      (∀ x ∈ pre, ∃ e, extract x = .error e) →
      ∃ le2 : Option GoErr,
        tryServers extract (pre ++ rest) lastErr =
          ((tryServers extract rest le2).1, pre ++ (tryServers extract rest le2).2) := by
  intro pre
  induction pre with
  | nil => intro lastErr _; exact ⟨lastErr, rfl⟩
  | cons x xs ih =>
    intro lastErr h
    obtain ⟨e, he⟩ := h x (by simp)
    obtain ⟨le2, hle2⟩ := ih (some e) (fun y hy => h y (by simp [hy]))
    refine ⟨le2, ?_⟩
    simp only [List.cons_append, tryServers, he, List.append_eq, hle2]

/-- When every server of the list fails to extract, the loop propagates
the last failure (wrapped) and attempts every server in order. -/
theorem tryServers_all_fail (extract : EpisodeServer → Except GoErr VideoSources)
    (last : EpisodeServer) (elast : GoErr) (hlast : extract last = .error elast) :
    ∀ (init : List EpisodeServer) (lastErr : Option GoErr),
      (∀ x ∈ init, ∃ e, extract x = .error e) →
      tryServers extract (init ++ [last]) lastErr =
        (.error (.wrap allServersFailedMsg elast), init ++ [last]) := by
  intro init
  induction init with
  | nil => intro lastErr _; simp only [List.nil_append, tryServers, hlast]
  | cons x xs ih =>
    intro lastErr h
    obtain ⟨e, he⟩ := h x (by simp)
    simp only [List.cons_append, tryServers, he, List.append_eq,
      ih (some e) (fun y hy => h y (by simp [hy]))]

/-- When every server of the list extracts cleanly but with an empty
Sources list, the loop keeps whatever error was recorded and attempts
every server. -/
theorem tryServers_all_clean (extract : EpisodeServer → Except GoErr VideoSources) :
    ∀ (servers : List EpisodeServer) (lastErr : Option GoErr),
      (∀ x ∈ servers, ∃ subs, extract x = .ok ⟨[], subs⟩) →
      tryServers extract servers lastErr =
        ((match lastErr with
          | some e => .error (.wrap allServersFailedMsg e)
          | none => .ok ⟨[], []⟩),
         servers) := by
  intro servers
  induction servers with
  | nil => intro lastErr _; rfl
  | cons x xs ih =>
    intro lastErr h
    obtain ⟨subs, hx⟩ := h x (by simp)
    simp only [tryServers, hx, List.length_nil, gt_iff_lt, Nat.lt_irrefl, if_false,
      ih lastErr (fun y hy => h y (by simp [hy]))]

/-- C1: when the first K servers produce extractor errors and server K+1
yields a VideoSources with at least one Source,
`FetchEpisodeSourcesWithMediaID` returns exactly server K+1's
VideoSources, and the extractor is invoked precisely on the first K+1
servers — never on servers K+2..N. -/
theorem claim1_first_success_wins
    (extract : EpisodeServer → Except GoErr VideoSources)
    (pre : List EpisodeServer) (srv : EpisodeServer) (post : List EpisodeServer)
    (v : VideoSources)
    (hpre : ∀ x ∈ pre, ∃ e, extract x = .error e)
    (hsrv : extract srv = .ok v)
    (hv : v.sources ≠ []) :
    FetchEpisodeSourcesWithMediaID (.ok (pre ++ srv :: post)) extract =
      (.ok v, pre ++ [srv]) := by
  obtain ⟨le2, hle2⟩ := tryServers_error_prefix extract (srv :: post) pre none hpre
  have hsv : tryServers extract (srv :: post) le2 = (.ok v, [srv]) := by
    simp only [tryServers, hsrv, gt_iff_lt, List.length_pos.mpr hv, if_true]
  simp only [FetchEpisodeSourcesWithMediaID]
  rw [if_neg (by simp)]
  rw [hle2, hsv]

/-- C1 witness: on the concrete server list [srvA, srvB, srvC] where
srvA errors and srvB yields one source, the pipeline returns srvB's
result and attempts only srvA and srvB. -/
theorem claim1_first_success_wins_witness :
    FetchEpisodeSourcesWithMediaID (.ok [srvA, srvB, srvC]) exFirstFails =
      (.ok vsB, [srvA, srvB]) :=
  claim1_first_success_wins exFirstFails [srvA] srvB [srvC] vsB
    (by
      intro x hx
      rw [List.mem_singleton] at hx
      subst hx
      exact ⟨.base (gs "decrypt failed"), rfl⟩)
    rfl
    (by decide)

/-- C2: for a non-empty server list in which every server's extraction
produces a hard error, `FetchEpisodeSourcesWithMediaID` returns an error
wrapping the last attempted server's error and no VideoSources (the
`Except.error` constructor carries no result). -/
theorem claim2_all_fail_wraps_last
    (extract : EpisodeServer → Except GoErr VideoSources)
    (init : List EpisodeServer) (last : EpisodeServer) (elast : GoErr)
    (hinit : ∀ x ∈ init, ∃ e, extract x = .error e)
    (hlast : extract last = .error elast) :
    FetchEpisodeSourcesWithMediaID (.ok (init ++ [last])) extract =
      (.error (.wrap allServersFailedMsg elast), init ++ [last]) := by
  simp only [FetchEpisodeSourcesWithMediaID]
  rw [if_neg (by simp)]
  exact tryServers_all_fail extract last elast hlast init none hinit

/-- C2 witness: with all three concrete servers failing, the pipeline
returns the last server's error wrapped with the exhaustion context. -/
theorem claim2_all_fail_wraps_last_witness :
    FetchEpisodeSourcesWithMediaID (.ok [srvA, srvB, srvC]) exAllFail =
      (.error (.wrap allServersFailedMsg
        (.base (gs "embed fetch failed for " ++ srvC.name))), [srvA, srvB, srvC]) :=
  claim2_all_fail_wraps_last exAllFail [srvA, srvB] srvC
    (.base (gs "embed fetch failed for " ++ srvC.name))
    (by
      intro x hx
      exact ⟨.base (gs "embed fetch failed for " ++ x.name), rfl⟩)
    rfl

/-- C3: an empty discovered server list, and equally a list in which
every server returns a clean empty result with no error, make
`FetchEpisodeSourcesWithMediaID` return a VideoSources with empty
Sources and Subtitles lists and no error (`Except.ok`, distinguishable
from a hard failure). -/
theorem claim3_empty_is_not_error
    (extract : EpisodeServer → Except GoErr VideoSources)
    (servers : List EpisodeServer)
    (h : ∀ x ∈ servers, ∃ subs, extract x = .ok ⟨[], subs⟩) :
    FetchEpisodeSourcesWithMediaID (.ok []) extract = (.ok ⟨[], []⟩, []) ∧
    FetchEpisodeSourcesWithMediaID (.ok servers) extract = (.ok ⟨[], []⟩, servers) := by
  refine ⟨rfl, ?_⟩
  cases servers with
  | nil => rfl
  | cons x xs =>
    simp only [FetchEpisodeSourcesWithMediaID]
    rw [if_neg (by simp)]
    exact tryServers_all_clean extract (x :: xs) none h

/-- C3 witness: on the concrete all-clean-empty server list the pipeline
returns the empty VideoSources with no error, as it does for the empty
list. -/
theorem claim3_empty_is_not_error_witness :
    FetchEpisodeSourcesWithMediaID (.ok []) exAllClean = (.ok ⟨[], []⟩, []) ∧
    FetchEpisodeSourcesWithMediaID (.ok [srvA, srvB]) exAllClean =
      (.ok ⟨[], []⟩, [srvA, srvB]) :=
  claim3_empty_is_not_error exAllClean [srvA, srvB]
    (by
      intro x hx
      refine ⟨if x = srvA then [⟨gs "https://cdn.example/x.vtt", gs "English"⟩] else [], rfl⟩)

/-- C9: the sflix adapter's `HealthCheck` returns nil for every context
and every adapter state; it performs no check at all. -/
theorem claim9_healthcheck_always_nil :
    ∀ (st : SFlixState) (ctx : GoContext), HealthCheck st ctx = none :=
  fun _ _ => rfl

/-- C10: the sflix adapter's `GetTrending` and `GetRecent`
unconditionally fail for every context and adapter state, returning no
media list and a "not implemented" error. -/
theorem claim10_trending_recent_unimplemented :
    ∀ (st : SFlixState) (ctx : GoContext),
      GetTrending st ctx = .error (.base (gs "not implemented")) ∧
      GetRecent st ctx = .error (.base (gs "not implemented")) :=
  fun _ _ => ⟨rfl, rfl⟩

/-- The first list element satisfying a predicate is found even past a
prefix of non-matching elements. -/
theorem find?_first_match {α : Type} (p : α → Bool) (a : α) (post : List α)
    (ha : p a = true) :
    ∀ pre : List α, (∀ x ∈ pre, p x = false) →
      (pre ++ a :: post).find? p = some a := by
  intro pre
  induction pre with
  | nil => intro _; simpa using List.find?_cons_of_pos _ ha
  | cons x xs ih =>
    intro h
    rw [List.cons_append, List.find?_cons_of_neg _ (by simp [h x (by simp)])]
    exact ih (fun y hy => h y (by simp [hy]))

/-- C4: for a non-empty resolved source list, `GetStreamURL` selects the
first Source whose quality label matches the requested quality
case-insensitively (an `auto` request targeting the literal label
"auto"); when no source matches, it returns the first Source in list
order rather than an error. -/
theorem claim4_quality_selection :
    (∀ (quality : GoStr) (pre : List Source) (src : Source) (post : List Source)
        (subs : List Subtitle),
      (∀ x ∈ pre, eqFold x.quality (targetQualityOf quality) = false) →
      eqFold src.quality (targetQualityOf quality) = true →
      GetStreamURLPure (.ok ⟨pre ++ src :: post, subs⟩) quality =
        .ok (mkStreamURL src subs)) ∧
    (∀ (quality : GoStr) (s0 : Source) (rest : List Source) (subs : List Subtitle),
      (∀ x ∈ s0 :: rest, eqFold x.quality (targetQualityOf quality) = false) →
      GetStreamURLPure (.ok ⟨s0 :: rest, subs⟩) quality =
        .ok (mkStreamURL s0 subs)) ∧
    targetQualityOf qualityAuto = gs "auto" := by
  refine ⟨?_, ?_, rfl⟩
  · intro quality pre src post subs hpre hsrc
    have hfind : (pre ++ src :: post).find?
        (fun s => eqFold s.quality (targetQualityOf quality)) = some src :=
      find?_first_match _ src post hsrc pre hpre
    cases hp : pre ++ src :: post with
    | nil => exact absurd hp (by simp)
    | cons s0 rest =>
      rw [hp] at hfind
      simp only [GetStreamURLPure, hfind]
  · intro quality s0 rest subs h
    have hfind : (s0 :: rest).find?
        (fun s => eqFold s.quality (targetQualityOf quality)) = none :=
      List.find?_eq_none.mpr (fun x hx => by simp [h x hx])
    simp only [GetStreamURLPure, hfind]

/-- C4 witness: requesting "1080P" selects the source labelled "1080p"
past a non-matching "720p" source; requesting "1080p" over
[720p, 480p] falls back to the 720p source; and the auto sentinel
targets the literal label "auto". -/
theorem claim4_quality_selection_witness :
    GetStreamURLPure (.ok ⟨[src720, src1080], []⟩) (gs "1080P") =
      .ok (mkStreamURL src1080 []) ∧
    GetStreamURLPure (.ok ⟨[src720, src480], []⟩) (gs "1080p") =
      .ok (mkStreamURL src720 []) ∧
    targetQualityOf qualityAuto = gs "auto" :=
  ⟨claim4_quality_selection.1 (gs "1080P") [src720] src1080 [] []
      (by decide) (by decide),
   claim4_quality_selection.2.1 (gs "1080p") src720 [src480] [] (by decide),
   claim4_quality_selection.2.2⟩

/-- Inserting a key-value pair makes lookup of that key return exactly
that value. -/
theorem kvLookup_kvInsert_self {α β : Type} [DecidableEq α]
    (l : List (α × β)) (k : α) (v : β) :
    kvLookup (kvInsert l k v) k = some v := by
  induction l with
  | nil => simp [kvInsert, kvLookup]
  | cons hd tl ih =>
    obtain ⟨k0, v0⟩ := hd
    by_cases hk : k0 = k
    · simp [kvInsert, kvLookup, hk]
    · simp [kvInsert, kvLookup, hk, ih]

/-- C5: with a cold cache, two sequential `GetMediaDetails` calls for the
same id perform exactly one upstream fetch: the first call fetches
(count 1) and stores the parsed info under the exact id, and the second
call — even with a changed upstream, `fetch2` — fetches nothing
(count 0) and returns the cached first result. The search cache behaves
the same way keyed by the exact query string. -/
theorem claim5_lifetime_cache
    (st : SFlixState) (id q : GoStr)
    (fetch1 fetch2 : GoStr → Except GoErr MovieInfo)
    (sfetch1 sfetch2 : GoStr → Except GoErr (List Media))
    (info : MovieInfo) (results : List Media)
    (hmiss : kvLookup st.infoCache id = none)
    (hsmiss : kvLookup st.searchCache q = none)
    (hf : fetch1 id = .ok info)
    (hs : sfetch1 q = .ok results) :
    (GetMediaDetailsM fetch1 st id).1 = .ok (toMediaDetails id info) ∧
    (GetMediaDetailsM fetch1 st id).2.2 = 1 ∧
    kvLookup (GetMediaDetailsM fetch1 st id).2.1.infoCache id = some info ∧
    (GetMediaDetailsM fetch2 (GetMediaDetailsM fetch1 st id).2.1 id).1 =
      .ok (toMediaDetails id info) ∧
    (GetMediaDetailsM fetch2 (GetMediaDetailsM fetch1 st id).2.1 id).2.2 = 0 ∧
    (SearchM sfetch1 st q).1 = .ok results ∧
    (SearchM sfetch1 st q).2.2 = 1 ∧
    (SearchM sfetch2 (SearchM sfetch1 st q).2.1 q).1 = .ok results ∧
    (SearchM sfetch2 (SearchM sfetch1 st q).2.1 q).2.2 = 0 := by
  have h1 : GetMediaDetailsM fetch1 st id =
      (.ok (toMediaDetails id info),
       { st with infoCache := kvInsert st.infoCache id info }, 1) := by
    simp only [GetMediaDetailsM, GetInfoM, hmiss, hf]
  have hlook : kvLookup (kvInsert st.infoCache id info) id = some info :=
    kvLookup_kvInsert_self _ _ _
  have h2 : GetMediaDetailsM fetch2
      ({ st with infoCache := kvInsert st.infoCache id info }) id =
      (.ok (toMediaDetails id info),
       { st with infoCache := kvInsert st.infoCache id info }, 0) := by
    simp only [GetMediaDetailsM, GetInfoM, hlook]
  have hs1 : SearchM sfetch1 st q =
      (.ok results, { st with searchCache := kvInsert st.searchCache q results }, 1) := by
    simp only [SearchM, hsmiss, hs]
  have hslook : kvLookup (kvInsert st.searchCache q results) q = some results :=
    kvLookup_kvInsert_self _ _ _
  have hs2 : SearchM sfetch2
      ({ st with searchCache := kvInsert st.searchCache q results }) q =
      (.ok results, { st with searchCache := kvInsert st.searchCache q results }, 0) := by
    simp only [SearchM, hslook]
  rw [h1]
  exact ⟨rfl, rfl, hlook, by rw [h2], by rw [h2], by rw [hs1], by rw [hs1],
    by rw [hs1]; rw [hs2], by rw [hs1]; rw [hs2]⟩

/-- C5 witness: on an empty cache, with the upstream retitling the show
between the calls, the second `GetMediaDetails` and `Search` calls still
return the first results and fetch nothing. -/
theorem claim5_lifetime_cache_witness :
    (GetMediaDetailsM (fun _ => .ok infoSample) ⟨[], []⟩
        (gs "tv/free-stranger-things-hd-39444")).1 =
      .ok (toMediaDetails (gs "tv/free-stranger-things-hd-39444") infoSample) ∧
    (GetMediaDetailsM (fun _ => .ok infoSample) ⟨[], []⟩
        (gs "tv/free-stranger-things-hd-39444")).2.2 = 1 ∧
    kvLookup (GetMediaDetailsM (fun _ => .ok infoSample) ⟨[], []⟩
        (gs "tv/free-stranger-things-hd-39444")).2.1.infoCache
        (gs "tv/free-stranger-things-hd-39444") = some infoSample ∧
    (GetMediaDetailsM (fun _ => .ok infoSampleChanged)
        (GetMediaDetailsM (fun _ => .ok infoSample) ⟨[], []⟩
          (gs "tv/free-stranger-things-hd-39444")).2.1
        (gs "tv/free-stranger-things-hd-39444")).1 =
      .ok (toMediaDetails (gs "tv/free-stranger-things-hd-39444") infoSample) ∧
    (GetMediaDetailsM (fun _ => .ok infoSampleChanged)
        (GetMediaDetailsM (fun _ => .ok infoSample) ⟨[], []⟩
          (gs "tv/free-stranger-things-hd-39444")).2.1
        (gs "tv/free-stranger-things-hd-39444")).2.2 = 0 ∧
    (SearchM (fun _ => .ok mediaSample) ⟨[], []⟩ (gs "stranger things")).1 =
      .ok mediaSample ∧
    (SearchM (fun _ => .ok mediaSample) ⟨[], []⟩ (gs "stranger things")).2.2 = 1 ∧
    (SearchM (fun _ => .ok mediaSampleChanged)
        (SearchM (fun _ => .ok mediaSample) ⟨[], []⟩ (gs "stranger things")).2.1
        (gs "stranger things")).1 = .ok mediaSample ∧
    (SearchM (fun _ => .ok mediaSampleChanged)
        (SearchM (fun _ => .ok mediaSample) ⟨[], []⟩ (gs "stranger things")).2.1
        (gs "stranger things")).2.2 = 0 :=
  claim5_lifetime_cache ⟨[], []⟩ (gs "tv/free-stranger-things-hd-39444")
    (gs "stranger things")
    (fun _ => .ok infoSample) (fun _ => .ok infoSampleChanged)
    (fun _ => .ok mediaSample) (fun _ => .ok mediaSampleChanged)
    infoSample mediaSample rfl rfl rfl rfl

/-- C6: no resolution operation touches the adapter caches. `GetSources`,
`FetchEpisodeSourcesWithMediaID`, `extractSourcesFromServer` and
`GetStreamURL` return the adapter state unchanged, and their results do
not depend on the contents of `searchCache` or `infoCache` — so every
resolution call re-runs the upstream fetches. -/
theorem claim6_resolution_never_cached
    (fetchServers : GoStr → GoStr → Except GoErr (List EpisodeServer))
    (extract embedExtract : EpisodeServer → Except GoErr VideoSources)
    (st st2 : SFlixState) (episodeID mediaID quality : GoStr)
    (server : EpisodeServer) :
    (GetSourcesSt fetchServers extract st episodeID).2 = st ∧
    (GetSourcesSt fetchServers extract st episodeID).1 =
      (GetSourcesSt fetchServers extract st2 episodeID).1 ∧
    (FetchEpisodeSourcesWithMediaIDSt fetchServers extract st episodeID mediaID).2 = st ∧
    (FetchEpisodeSourcesWithMediaIDSt fetchServers extract st episodeID mediaID).1 =
      (FetchEpisodeSourcesWithMediaIDSt fetchServers extract st2 episodeID mediaID).1 ∧
    (extractSourcesFromServerSt embedExtract st server).2 = st ∧
    (extractSourcesFromServerSt embedExtract st server).1 =
      (extractSourcesFromServerSt embedExtract st2 server).1 ∧
    (GetStreamURLSt fetchServers extract st episodeID quality).2 = st ∧
    (GetStreamURLSt fetchServers extract st episodeID quality).1 =
      (GetStreamURLSt fetchServers extract st2 episodeID quality).1 :=
  ⟨rfl, rfl, rfl, rfl, rfl, rfl, rfl, rfl⟩

/-- Decimal digit characters are digit characters. -/
theorem digitChar_isDigit (d : Nat) (h : d < 10) : (Nat.digitChar d).isDigit = true := by
  interval_cases d <;> decide

/-- Value of a decimal digit character. -/
theorem digitChar_sub48 (d : Nat) (h : d < 10) : (Nat.digitChar d).toNat - 48 = d := by
  interval_cases d <;> decide

/-- No digit character is the pipe delimiter. -/
theorem isDigit_ne_pipe (c : Char) (h : c.isDigit = true) : c ≠ '|' := by
  intro he
  rw [he] at h
  exact absurd h (by decide)

/-- The printer never emits an empty digit string. -/
theorem natToCharsAux_ne_nil (fuel n : Nat) : natToCharsAux fuel n ≠ [] := by
  cases fuel with
  | zero => simp [natToCharsAux]
  | succ f => unfold natToCharsAux; split <;> simp

/-- With sufficient fuel, the printer emits only digit characters. -/
theorem natToCharsAux_all_digits :
    ∀ (fuel n : Nat), n ≤ fuel → ∀ c ∈ natToCharsAux fuel n, c.isDigit = true := by
  intro fuel
  induction fuel with
  | zero =>
    intro n hn c hc
    have hz : n = 0 := by omega
    subst hz
    rw [show natToCharsAux 0 0 = [Nat.digitChar 0] from rfl, List.mem_singleton] at hc
    subst hc
    decide
  | succ f ih =>
    intro n hn c hc
    unfold natToCharsAux at hc
    split at hc
    next h =>
      rw [List.mem_singleton] at hc
      subst hc
      exact digitChar_isDigit n h
    next h =>
      rw [List.mem_append] at hc
      rcases hc with hc | hc
      · have hlt : n / 10 < n := Nat.div_lt_self (by omega) (by omega)
        exact ih (n / 10) (by omega) c hc
      · rw [List.mem_singleton] at hc
        subst hc
        exact digitChar_isDigit _ (Nat.mod_lt _ (by omega))

/-- Folding the decimal evaluator over a printed number recovers the
number, shifted past any accumulator. -/
theorem natToCharsAux_foldl :
    ∀ (fuel n : Nat), n ≤ fuel → ∀ a : Nat,
      (natToCharsAux fuel n).foldl (fun a c => 10 * a + (c.toNat - 48)) a =
        a * 10 ^ (natToCharsAux fuel n).length + n := by
  intro fuel
  induction fuel with
  | zero =>
    intro n hn a
    have hz : n = 0 := by omega
    subst hz
    show 10 * a + ((Nat.digitChar 0).toNat - 48) = a * 10 ^ 1 + 0
    simp [Nat.digitChar]
    omega
  | succ f ih =>
    intro n hn a
    unfold natToCharsAux
    split
    next h =>
      show 10 * a + ((Nat.digitChar n).toNat - 48) = a * 10 ^ 1 + n
      rw [digitChar_sub48 n h]
      omega
    next h =>
      have hlt : n / 10 < n := Nat.div_lt_self (by omega) (by omega)
      rw [List.foldl_append, ih (n / 10) (by omega) a]
      show 10 * (a * 10 ^ (natToCharsAux f (n / 10)).length + n / 10) +
          ((Nat.digitChar (n % 10)).toNat - 48) =
        a * 10 ^ (natToCharsAux f (n / 10) ++ [Nat.digitChar (n % 10)]).length + n
      rw [digitChar_sub48 _ (Nat.mod_lt _ (by omega)), List.length_append,
        List.length_singleton]
      have hdm : 10 * (n / 10) + n % 10 = n := Nat.div_add_mod n 10
      generalize (natToCharsAux f (n / 10)).length = L
      calc 10 * (a * 10 ^ L + n / 10) + n % 10
          = a * 10 ^ L * 10 + (10 * (n / 10) + n % 10) := by ring
        _ = a * 10 ^ L * 10 + n := by rw [hdm]
        _ = a * 10 ^ (L + 1) + n := by rw [pow_succ]; ring

/-- Parsing a printed number returns the number: the Atoi / Itoa round
trip underlying the season-id codec. -/
theorem goAtoi_natToChars (n : Nat) : goAtoi (natToChars n) = some n := by
  unfold goAtoi
  rw [if_pos ⟨natToCharsAux_ne_nil n n,
    List.all_eq_true.mpr (natToCharsAux_all_digits n n (Nat.le_refl n))⟩]
  rw [show natToChars n = natToCharsAux n n from rfl,
    natToCharsAux_foldl n n (Nat.le_refl n) 0]
  simp

/-- The printed digits never contain the pipe delimiter. -/
theorem natToChars_no_pipe (n : Nat) : '|' ∉ natToChars n := fun hc =>
  isDigit_ne_pipe '|' (natToCharsAux_all_digits n n (Nat.le_refl n) '|' hc) rfl

/-- Splitting an encoded id on the delimiter recovers both halves when
neither contains the delimiter. -/
theorem splitOn_pipe_encode (mediaID digits : GoStr)
    (hm : '|' ∉ mediaID) (hd : '|' ∉ digits) :
    (mediaID ++ '|' :: digits).splitOn '|' = [mediaID, digits] := by
  show List.splitOnP (fun x => x == '|') (mediaID ++ '|' :: digits) = [mediaID, digits]
  rw [List.splitOnP_first _ _
    (fun x hx => by simp only [beq_iff_eq]; exact fun he => hm (he ▸ hx)) '|' (by simp)]
  rw [List.splitOnP_eq_single _ _
    (fun x hx => by simp only [beq_iff_eq]; exact fun he => hd (he ▸ hx))]

/-- A comparison-exchange step only rearranges existing entries. -/
theorem swapIfGreater_subset (l : List Season) (i j : Nat) :
    ∀ x ∈ swapIfGreater l i j, x ∈ l := by
  intro x hx
  unfold swapIfGreater at hx
  split at hx
  · split at hx
    next a b ha hb =>
      split at hx
      · rcases List.mem_or_eq_of_mem_set hx with h1 | h1
        · rcases List.mem_or_eq_of_mem_set h1 with h2 | h2
          · exact h2
          · subst h2; exact List.get?_mem hb
        · subst h1; exact List.get?_mem ha
      · exact hx
    next => exact hx
  · exact hx

/-- A fold whose step never invents entries never invents entries. -/
theorem foldl_subset {α β : Type} (f : List α → β → List α)
    (hf : ∀ acc b x, x ∈ f acc b → x ∈ acc) :
    ∀ (bs : List β) (acc : List α) (x : α), x ∈ bs.foldl f acc → x ∈ acc := by
  intro bs
  induction bs with
  | nil => intro acc x hx; exact hx
  | cons b rest ih => intro acc x hx; exact hf acc b x (ih (f acc b) x hx)

/-- The exchange sort only rearranges the collected seasons. -/
theorem sortSeasons_subset (l : List Season) : ∀ x ∈ sortSeasons l, x ∈ l := by
  intro x hx
  unfold sortSeasons at hx
  exact foldl_subset _
    (fun acc i y hy =>
      foldl_subset _ (fun acc2 j z hz => swapIfGreater_subset acc2 i j z hz) _ acc y hy)
    _ l x hx

/-- Every season the collection loop emits carries the delimited id
built from its own season number. -/
theorem collectSeasons_id (mediaID : GoStr) :
    ∀ (eps : List TEpisode) (seen : List Nat),
      ∀ s ∈ collectSeasons mediaID eps seen, s.id = mkSeasonID mediaID s.number := by
  intro eps
  induction eps with
  | nil => intro seen s hs; exact absurd hs (by simp [collectSeasons])
  | cons ep rest ih =>
    intro seen s hs
    simp only [collectSeasons] at hs
    generalize (if ep.season = 0 then 1 else ep.season) = sNum at hs
    split at hs
    · exact ih _ s hs
    · rcases List.mem_cons.mp hs with h | h
      · subst h; rfl
      · exact ih _ s h

/-- C7: season identity round-trips through the delimited-string
encoding. For a media id free of the delimiter, `GetEpisodes`' parser
re-derives exactly (mediaID, n) from the id "mediaID|n" that
`GetSeasons` emits; an id without the delimiter is treated as the media
id with season number 1; and every season `GetSeasons` returns parses
back to the original media id and that season's number. -/
theorem claim7_season_id_roundtrip :
    (∀ (mediaID : GoStr) (n : Nat), '|' ∉ mediaID →
      parseSeasonID (mkSeasonID mediaID n) = (mediaID, n)) ∧
    (∀ mediaID : GoStr, '|' ∉ mediaID → parseSeasonID mediaID = (mediaID, 1)) ∧
    (∀ (mediaID : GoStr) (info : MovieInfo), '|' ∉ mediaID →
      ∀ s ∈ GetSeasonsPure mediaID info, parseSeasonID s.id = (mediaID, s.number)) := by
  have part1 : ∀ (mediaID : GoStr) (n : Nat), '|' ∉ mediaID →
      parseSeasonID (mkSeasonID mediaID n) = (mediaID, n) := by
    intro mediaID n hm
    unfold mkSeasonID parseSeasonID
    rw [if_pos (by simp)]
    rw [splitOn_pipe_encode mediaID (natToChars n) hm (natToChars_no_pipe n)]
    simp [goAtoi_natToChars n]
  have part2 : ∀ mediaID : GoStr, '|' ∉ mediaID →
      parseSeasonID mediaID = (mediaID, 1) := by
    intro mediaID hm
    unfold parseSeasonID
    rw [if_neg hm]
  refine ⟨part1, part2, ?_⟩
  intro mediaID info hm s hs
  unfold GetSeasonsPure at hs
  split at hs
  · rw [List.mem_singleton] at hs
    subst hs
    exact part2 mediaID hm
  · have hmem := sortSeasons_subset _ s hs
    rw [collectSeasons_id mediaID info.episodes [] s hmem]
    exact part1 mediaID s.number hm

/-- C7 witness: the round trip evaluated on concrete ids — an encoded
tv season 3, a plain movie id, and a season actually emitted by
`GetSeasons` on the sample info. -/
theorem claim7_season_id_roundtrip_witness :
    parseSeasonID (mkSeasonID (gs "tv/free-stranger-things-hd-39444") 3) =
      (gs "tv/free-stranger-things-hd-39444", 3) ∧
    parseSeasonID (gs "movie/free-inception-hd-19764") =
      (gs "movie/free-inception-hd-19764", 1) ∧
    parseSeasonID (Season.mk (mkSeasonID (gs "tv/x") 2) 2 (gs "Season 2")).id =
      (gs "tv/x", 2) :=
  ⟨claim7_season_id_roundtrip.1 _ 3 (by decide),
   claim7_season_id_roundtrip.2.1 _ (by decide),
   claim7_season_id_roundtrip.2.2 (gs "tv/x") infoSeasons (by decide)
     ⟨mkSeasonID (gs "tv/x") 2, 2, gs "Season 2"⟩ (by decide)⟩

/-- The lua scan loop reports nothing and loads exactly the ".lua"
entries of the listing, each once, in order, past whatever the
accumulator already holds. -/
theorem luaLoadFold_spec (cfg : ProvidersConfig) (luaDir : GoStr)
    (luaName luaType : GoStr → GoStr) :
    ∀ (files : List DirEntry) (acc : LoadResult),
      (files.foldl (luaLoadStep cfg luaDir luaName luaType) acc).reported =
        acc.reported ∧
      (files.foldl (luaLoadStep cfg luaDir luaName luaType) acc).loaded =
        acc.loaded ++
          (files.filter (fun f => !f.isDir && goExt f.name == gs ".lua")).map
            (fun f => luaDir ++ '/' :: f.name) := by
  intro files
  induction files with
  | nil => intro acc; simp
  | cons f rest ih =>
    intro acc
    rw [List.foldl_cons, List.filter_cons]
    by_cases hf : (!f.isDir && goExt f.name == gs ".lua") = true
    · rw [if_pos hf]
      refine ⟨?_, ?_⟩
      · rw [(ih _).1]
        simp [luaLoadStep, hf]
      · rw [(ih _).2]
        simp [luaLoadStep, hf]
    · rw [if_neg hf]
      refine ⟨?_, ?_⟩
      · rw [(ih _).1]
        simp [luaLoadStep, hf]
      · rw [(ih _).2]
        simp [luaLoadStep, hf]

/-- C8 counterexample: with every provider enabled in local mode and the
plugin directory unreadable, `Registry.Load` reports nothing at all —
refuting the claim that the failure "is reported" — while the failure
stays non-fatal: no plugin loads and sflix (like the other static
providers) remains registered. -/
theorem claim8_counterexample :
    (registryLoad cfgAllLocal (gs "/home/user/.config/greg/luaProviders")
      (.error (.base (gs "permission denied")))
      (fun p => p) (fun _ => gs "anime")).reported = [] ∧
    (registryLoad cfgAllLocal (gs "/home/user/.config/greg/luaProviders")
      (.error (.base (gs "permission denied")))
      (fun p => p) (fun _ => gs "anime")).loaded = [] ∧
    kvLookup (registryLoad cfgAllLocal (gs "/home/user/.config/greg/luaProviders")
      (.error (.base (gs "permission denied")))
      (fun p => p) (fun _ => gs "anime")).reg (gs "sflix") = some .sflix :=
  ⟨rfl, rfl, by decide⟩

/-- C8 (amended): at registry construction the host scans the configured
plugin directory and passes each ".lua" script file to the plugin loader
exactly once; a failure to read the directory is silently ignored —
`Registry.Load` never reports any error — and is not fatal to the
registry: its outcome is identical to that of an empty plugin directory,
so the lua plugins are simply absent from the provider set while every
statically registered provider remains. -/
theorem claim8_load_failure_silent (cfg : ProvidersConfig) (luaDir : GoStr)
    (e : GoErr) (dirListing : Except GoErr (List DirEntry))
    (files : List DirEntry) (luaName luaType : GoStr → GoStr) :
    registryLoad cfg luaDir (.error e) luaName luaType =
      registryLoad cfg luaDir (.ok []) luaName luaType ∧
    (registryLoad cfg luaDir dirListing luaName luaType).reported = [] ∧
    (registryLoad cfg luaDir (.ok files) luaName luaType).loaded =
      (files.filter (fun f => !f.isDir && goExt f.name == gs ".lua")).map
        (fun f => luaDir ++ '/' :: f.name) := by
  refine ⟨rfl, ?_, ?_⟩
  · cases dirListing with
    | error e2 => rfl
    | ok files2 =>
      show (files2.foldl (luaLoadStep cfg luaDir luaName luaType) _).reported = []
      rw [(luaLoadFold_spec cfg luaDir luaName luaType files2 _).1]
  · show (files.foldl (luaLoadStep cfg luaDir luaName luaType) _).loaded = _
    rw [(luaLoadFold_spec cfg luaDir luaName luaType files _).2]
    rfl

end Greg
